import Mathlib

/-!
Shallow embedding of the simplicity-tools Python package
(src/simplicity_tools/platform.py, downloader.py, core.py) and proofs about
its specified behaviour.

Modelling conventions:
- Python dicts become association lists (`List (String × α)`) so that
  membership, indexing and insertion-order key iteration are all explicit.
- Python exceptions become an `Except PyError` result; each exception class
  of exceptions.py (plus the builtin ValueError / OSError / IndexError)
  is a `PyError` constructor carrying its message.
- Filesystem, network and subprocess effects are oracles passed in
  explicitly (fields of `Env`, `DlEnv`, or extra arguments), and mutable
  object state (the path cache, the on-disk tool directories) is threaded
  as an explicit state value.
-/

namespace ST

/-- Python exceptions raised by the embedded code: the classes declared in
exceptions.py plus the builtins the code can raise or let propagate. -/
inductive PyError where
  | valueError (msg : String)
  | toolNotFoundError (msg : String)
  | downloadError (msg : String)
  | platformNotSupportedError (msg : String)
  | installationError (msg : String)
  | simplicityToolsError (msg : String)
  | osError (msg : String)
  | indexError (msg : String)
  deriving Repr, DecidableEq

/-- Dict lookup: `d[k]` / `k in d` for a Python dict modelled as an
association list (first binding wins; dicts have unique keys). -/
def alookup (k : String) : List (String × α) → Option α
  | [] => none
  | (k₂, v) :: rest => if k = k₂ then some v else alookup k rest

/-- Dict key iteration order: `list(d.keys())`. -/
def akeys (l : List (String × α)) : List String := l.map Prod.fst

/-- Dict update `d[k] = v` (replaces an existing binding, else appends,
preserving insertion order as CPython does). -/
def aset (k : String) (v : α) : List (String × α) → List (String × α)
  | [] => [(k, v)]
  | (k₂, v₂) :: rest => if k = k₂ then (k, v) :: rest else (k₂, v₂) :: aset k v rest

/-- Dict removal `d.pop(k, None)`: drops every binding of `k` (a Python dict
holds at most one). -/
def apop (k : String) (l : List (String × α)) : List (String × α) :=
  l.filter (fun e => !(e.1 = k : Bool))

theorem alookup_aset_self (k : String) (v : α) :
    ∀ l : List (String × α), alookup k (aset k v l) = some v := by
  intro l
  induction l with
  | nil => simp [aset, alookup]
  | cons e rest ih =>
    by_cases h : k = e.1
    · simp [aset, alookup, h]
    · simp [aset, alookup, h, ih]

theorem alookup_apop_self (k : String) (l : List (String × α)) :
    alookup k (apop k l) = none := by
  induction l with
  | nil => simp [apop, alookup]
  | cons e rest ih =>
    by_cases h : e.1 = k
    · simpa [apop, h] using ih
    · have hne : ¬ (k = e.1) := fun hk => h hk.symm
      simp only [apop, List.filter] at ih ⊢
      simp [h, alookup, hne, ih]

/-- Character list of a string literal (file names and paths are modelled as
character lists so that the pathlib suffix computation is structural). -/
def chars (s : String) : List Char := s.data

/-! pathlib semantics. `PurePath.suffix` is the part of the final name from
its last dot `.` onward, provided that dot is neither the first nor the last
character; `PurePath.stem` is the part before it. We compute on the reversed
name: `splitExtRev` splits a reversed name at its first dot. -/

/-- Split a reversed character list at its first dot: the characters before
the dot (the reversed extension) and the characters after it. -/
def splitExtRev : List Char → Option (List Char × List Char)
  | [] => none
  | c :: cs =>
    if c = '.' then some ([], cs)
    else (splitExtRev cs).map (fun p => (c :: p.1, p.2))

/-- pathlib `Path(name).suffix`: the last extension with its dot, or empty
when the last dot is absent, leading, or trailing. -/
def pySuffix (name : List Char) : List Char :=
  match splitExtRev name.reverse with
  | some (ext, rest) => if ext ≠ [] ∧ rest ≠ [] then '.' :: ext.reverse else []
  | none => []

/-- pathlib `Path(name).stem`: the final name with `pySuffix` removed. -/
def pyStem (name : List Char) : List Char :=
  match splitExtRev name.reverse with
  | some (ext, rest) => if ext ≠ [] ∧ rest ≠ [] then rest.reverse else name
  | none => name

/-- Which extraction routine `ToolDownloader.extract_archive` dispatches to. -/
inductive ArchiveRoute where
  | zip
  | gzTar
  | plainTar
  deriving Repr, DecidableEq

/-- ToolDownloader.extract_archive (downloader.py): dispatch on the archive
file name. Mirrors the if/elif chain on `archive_path.suffix` and
`archive_path.stem`; the final else raises InstallationError (the
UnsupportedFormat case) before any extraction I/O touches the filesystem.
The model returns the chosen route instead of performing the extraction. -/
def extract_archive (name : List Char) : Except PyError ArchiveRoute :=
  if pySuffix name = chars ".zip" then .ok .zip
  else if pySuffix name = chars ".gz" ∧ (chars ".tar").isSuffixOf (pyStem name) = true then
    .ok .gzTar
  else if pySuffix name = chars ".tar" then .ok .plainTar
  else .error (.installationError ("Unsupported archive format: " ++ String.mk (pySuffix name)))

example : pySuffix (chars "slc_cli_linux.zip") = chars ".zip" := by decide
example : pySuffix (chars "zap.tar.gz") = chars ".gz" := by decide
example : pyStem (chars "zap.tar.gz") = chars "zap.tar" := by decide
example : pySuffix (chars "zap.tgz") = chars ".tgz" := by decide
example : pySuffix (chars ".zip") = [] := by decide
example : extract_archive (chars "a.zip") = .ok .zip := rfl
example : extract_archive (chars "a.tar.gz") = .ok .gzTar := rfl
example : extract_archive (chars "a.tar") = .ok .plainTar := rfl

theorem splitExtRev_sound : ∀ {rcs ext rest : List Char},
    splitExtRev rcs = some (ext, rest) → rcs = ext ++ '.' :: rest ∧ '.' ∉ ext := by
  intro rcs
  induction rcs with
  | nil => intro ext rest h; simp [splitExtRev] at h
  | cons c cs ih =>
    intro ext rest h
    by_cases hc : c = '.'
    · subst hc
      rw [splitExtRev, if_pos rfl] at h
      obtain ⟨he, hr⟩ := Prod.mk.injEq _ _ _ _ ▸ Option.some.injEq _ _ ▸ h
      subst he; subst hr
      exact ⟨rfl, by simp⟩
    · rw [splitExtRev, if_neg hc, Option.map_eq_some'] at h
      obtain ⟨p, hp, hfp⟩ := h
      cases hfp
      obtain ⟨hcs, hnd⟩ := ih hp
      refine ⟨by rw [hcs]; rfl, ?_⟩
      intro hmem
      rcases List.mem_cons.mp hmem with h₂ | h₂
      · exact hc h₂.symm
      · exact hnd h₂

theorem splitExtRev_complete : ∀ (ext rest : List Char), '.' ∉ ext →
    splitExtRev (ext ++ '.' :: rest) = some (ext, rest) := by
  intro ext
  induction ext with
  | nil => intro rest _; simp [splitExtRev]
  | cons c cs ih =>
    intro rest h
    have hc : ¬ (c = '.') := fun hceq => h (by rw [hceq]; exact List.mem_cons_self _ _)
    rw [List.cons_append, splitExtRev, if_neg hc,
      ih rest (fun hm => h (List.mem_cons_of_mem c hm))]
    rfl

theorem pySuffix_append (pre ext : List Char) (hp : pre ≠ []) (he : ext ≠ [])
    (hd : '.' ∉ ext) :
    pySuffix (pre ++ '.' :: ext) = '.' :: ext ∧ pyStem (pre ++ '.' :: ext) = pre := by
  have hrev : (pre ++ '.' :: ext).reverse = ext.reverse ++ '.' :: pre.reverse := by
    simp [List.reverse_append]
  have hd₂ : '.' ∉ ext.reverse := by simpa using hd
  have hsplit := splitExtRev_complete ext.reverse pre.reverse hd₂
  have he₂ : ext.reverse ≠ [] := by simpa using he
  have hp₂ : pre.reverse ≠ [] := by simpa using hp
  constructor
  · unfold pySuffix
    rw [hrev, hsplit]
    simp [he₂, hp₂]
  · unfold pyStem
    rw [hrev, hsplit]
    simp [he₂, hp₂]

theorem pySuffix_inv {name sfx : List Char} (h : pySuffix name = '.' :: sfx) :
    ∃ pre, pre ≠ [] ∧ sfx ≠ [] ∧ '.' ∉ sfx ∧ name = pre ++ '.' :: sfx ∧
      pyStem name = pre := by
  unfold pySuffix at h
  cases hs : splitExtRev name.reverse with
  | none => rw [hs] at h; simp at h
  | some p =>
    obtain ⟨ext, rest⟩ := p
    rw [hs] at h
    dsimp only at h
    by_cases hcond : ext ≠ [] ∧ rest ≠ []
    · rw [if_pos hcond] at h
      have hext : ext.reverse = sfx := by
        have := List.cons.injEq '.' ext.reverse '.' sfx ▸ h
        exact this.2
      obtain ⟨hrcs, hnd⟩ := splitExtRev_sound hs
      have hname : name = rest.reverse ++ '.' :: ext.reverse := by
        have h₃ := congrArg List.reverse hrcs
        simpa [List.reverse_append] using h₃
      refine ⟨rest.reverse, by simpa using hcond.2, ?_, ?_, ?_, ?_⟩
      · rw [← hext]; simpa using hcond.1
      · rw [← hext]; simpa using hnd
      · rw [hname, hext]
      · unfold pyStem
        rw [hs]
        dsimp only
        rw [if_pos hcond]
    · rw [if_neg hcond] at h
      exact absurd h (by simp)

theorem extract_archive_cases (name : List Char) :
    extract_archive name = .ok .zip ∨ extract_archive name = .ok .gzTar ∨
      extract_archive name = .ok .plainTar ∨
      ∃ m, extract_archive name = .error (.installationError m) := by
  unfold extract_archive
  split
  · exact Or.inl rfl
  · split
    · exact Or.inr (Or.inl rfl)
    · split
      · exact Or.inr (Or.inr (Or.inl rfl))
      · exact Or.inr (Or.inr (Or.inr ⟨_, rfl⟩))

theorem extract_archive_zip_iff (name : List Char) :
    extract_archive name = .ok .zip ↔ ∃ pre, pre ≠ [] ∧ name = pre ++ chars ".zip" := by
  constructor
  · intro h
    unfold extract_archive at h
    split at h
    next hcond =>
      have h₂ : pySuffix name = '.' :: chars "zip" := hcond
      obtain ⟨pre, hpre, _, _, hname, _⟩ := pySuffix_inv h₂
      exact ⟨pre, hpre, hname⟩
    next =>
      split at h
      · simp at h
      · split at h
        · simp at h
        · simp at h
  · rintro ⟨pre, hpre, rfl⟩
    have e : (chars ".zip" : List Char) = '.' :: chars "zip" := rfl
    rw [e]
    have hp := pySuffix_append pre (chars "zip") hpre (by decide) (by decide)
    unfold extract_archive
    rw [hp.1, if_pos (by decide)]

theorem extract_archive_gzTar_iff (name : List Char) :
    extract_archive name = .ok .gzTar ↔ ∃ pre, name = pre ++ chars ".tar.gz" := by
  constructor
  · intro h
    unfold extract_archive at h
    split at h
    · simp at h
    · split at h
      next hcond =>
        obtain ⟨hsuf, hstem⟩ := hcond
        have h₂ : pySuffix name = '.' :: chars "gz" := hsuf
        obtain ⟨pre, _, _, _, hname, hstemEq⟩ := pySuffix_inv h₂
        rw [hstemEq] at hstem
        obtain ⟨q, hq⟩ := List.isSuffixOf_iff_suffix.mp hstem
        refine ⟨q, ?_⟩
        rw [hname, ← hq, List.append_assoc]
        rfl
      next =>
        split at h
        · simp at h
        · simp at h
  · rintro ⟨q, rfl⟩
    have hsplit : q ++ chars ".tar.gz" = (q ++ chars ".tar") ++ '.' :: chars "gz" := by
      rw [List.append_assoc]; rfl
    have hpre : q ++ chars ".tar" ≠ [] := by
      intro hc; rw [List.append_eq_nil] at hc; exact absurd hc.2 (by decide)
    have hp := pySuffix_append (q ++ chars ".tar") (chars "gz") hpre (by decide) (by decide)
    rw [hsplit]
    unfold extract_archive
    rw [hp.1, hp.2, if_neg (by decide),
      if_pos ⟨by decide, List.isSuffixOf_iff_suffix.mpr ⟨q, rfl⟩⟩]

theorem extract_archive_plainTar_iff (name : List Char) :
    extract_archive name = .ok .plainTar ↔
      ∃ pre, pre ≠ [] ∧ name = pre ++ chars ".tar" := by
  constructor
  · intro h
    unfold extract_archive at h
    split at h
    · simp at h
    · split at h
      · simp at h
      · split at h
        next hcond =>
          have h₂ : pySuffix name = '.' :: chars "tar" := hcond
          obtain ⟨pre, hpre, _, _, hname, _⟩ := pySuffix_inv h₂
          exact ⟨pre, hpre, hname⟩
        next => simp at h
  · rintro ⟨pre, hpre, rfl⟩
    have e : (chars ".tar" : List Char) = '.' :: chars "tar" := rfl
    rw [e]
    have hp := pySuffix_append pre (chars "tar") hpre (by decide) (by decide)
    unfold extract_archive
    rw [hp.1, if_neg (by decide), if_neg (fun hc => absurd hc.1 (by decide)),
      if_pos (by decide)]

theorem extract_archive_unsupported (name : List Char)
    (h₁ : ¬ ∃ pre, pre ≠ [] ∧ name = pre ++ chars ".zip")
    (h₂ : ¬ ∃ pre, name = pre ++ chars ".tar.gz")
    (h₃ : ¬ ∃ pre, pre ≠ [] ∧ name = pre ++ chars ".tar") :
    ∃ m, extract_archive name = .error (.installationError m) := by
  rcases extract_archive_cases name with h | h | h | h
  · exact absurd ((extract_archive_zip_iff name).mp h) h₁
  · exact absurd ((extract_archive_gzTar_iff name).mp h) h₂
  · exact absurd ((extract_archive_plainTar_iff name).mp h) h₃
  · exact h

/-- C2 (amended): extract_archive routes a name ending in `.zip` (as a real
extension, i.e. with a nonempty base) to zip extraction, a name ending in
`.tar.gz` to gzip-compressed tar extraction, a name ending in `.tar` (with a
nonempty base) to plain tar extraction, and every other name — in particular
a name ending in `.tgz` — fails with the UnsupportedFormat
InstallationError, raised before any extraction I/O touches the
filesystem. -/
theorem C2_extract_dispatch (name : List Char) :
    (extract_archive name = .ok .zip ↔ ∃ pre, pre ≠ [] ∧ name = pre ++ chars ".zip") ∧
    (extract_archive name = .ok .gzTar ↔ ∃ pre, name = pre ++ chars ".tar.gz") ∧
    (extract_archive name = .ok .plainTar ↔ ∃ pre, pre ≠ [] ∧ name = pre ++ chars ".tar") ∧
    ((¬ ∃ pre, pre ≠ [] ∧ name = pre ++ chars ".zip") →
      (¬ ∃ pre, name = pre ++ chars ".tar.gz") →
      (¬ ∃ pre, pre ≠ [] ∧ name = pre ++ chars ".tar") →
      ∃ m, extract_archive name = .error (.installationError m)) :=
  ⟨extract_archive_zip_iff name, extract_archive_gzTar_iff name,
    extract_archive_plainTar_iff name, extract_archive_unsupported name⟩

/-- C2 counterexample: the claim says a name ending in `.tgz` is routed to
gzip-compressed tar extraction, but extract_archive rejects `zap.tgz` with
the UnsupportedFormat InstallationError (its pathlib suffix is `.tgz`,
which matches no branch of the dispatch). -/
theorem C2_counterexample :
    chars "zap.tgz" = chars "zap" ++ chars ".tgz" ∧
    extract_archive (chars "zap.tgz") =
      .error (.installationError "Unsupported archive format: .tgz") ∧
    extract_archive (chars "zap.tgz") ≠ Except.ok ArchiveRoute.gzTar := by
  refine ⟨rfl, rfl, ?_⟩
  intro h
  rw [show extract_archive (chars "zap.tgz") =
    .error (.installationError "Unsupported archive format: .tgz") from rfl] at h
  exact Except.noConfusion h

/-- C2 witness: the amended dispatch applied to the concrete archive name
zap.tar.gz, which is routed to gzip-compressed tar extraction. -/
theorem C2_witness :
    extract_archive (chars "zap.tar.gz") = Except.ok ArchiveRoute.gzTar :=
  (C2_extract_dispatch (chars "zap.tar.gz")).2.1.mpr ⟨chars "zap", rfl⟩

/-! platform.py: PlatformDetector. -/

/-- PlatformDetector state from __init__: the lowercased host OS name and
machine string (platform.system().lower(), platform.machine().lower()). -/
structure PlatformDetector where
  system : String
  machine : String
  deriving Repr, DecidableEq

/-- The arch_map table of PlatformDetector._normalize_architecture. -/
def arch_map : List (String × String) :=
  [("x86_64", "x64"), ("amd64", "x64"), ("i386", "x86"), ("i686", "x86"),
   ("aarch64", "arm64"), ("arm64", "arm64"), ("armv7l", "arm32"), ("armv8l", "arm64")]

/-- PlatformDetector._normalize_architecture: arch_map.get(machine, machine). -/
def normalize_architecture (d : PlatformDetector) : String :=
  (alookup d.machine arch_map).getD d.machine

/-- The detector attribute self.architecture, computed once in __init__. -/
def architecture (d : PlatformDetector) : String := normalize_architecture d

/-- The supported_platforms allow-list of PlatformDetector.is_supported. -/
def supported_platforms : List (String × String) :=
  [("windows", "x64"), ("windows", "x86"), ("darwin", "x64"), ("darwin", "arm64"),
   ("linux", "x64"), ("linux", "arm64"), ("linux", "arm32")]

/-- PlatformDetector.is_supported: membership of (system, architecture) in
the allow-list. -/
def is_supported (d : PlatformDetector) : Bool :=
  supported_platforms.contains (d.system, architecture d)

/-- The platform_key string built inside PlatformDetector.get_tool_urls. -/
def platform_key (d : PlatformDetector) : String :=
  d.system ++ "-" ++ architecture d

/-- PlatformDetector.get_executable_name: append .exe on windows. -/
def get_executable_name (system tool_name : String) : String :=
  if system = "windows" then tool_name ++ ".exe" else tool_name

/-- Nested catalog mapping tool name → version label → platform key → URL,
the shape of config/tool_urls.json and of the hard-coded fallback. -/
abbrev UrlConfig := List (String × List (String × List (String × String)))

/-- PlatformDetector._get_fallback_urls: the hard-coded catalog. -/
def get_fallback_urls : UrlConfig :=
  [("slc-cli",
    [("latest",
      [("windows-x64", "https://www.silabs.com/documents/login/software/slc_cli_windows.zip"),
       ("windows-x86", "https://www.silabs.com/documents/login/software/slc_cli_windows.zip"),
       ("darwin-x64", "https://www.silabs.com/documents/login/software/slc_cli_mac.zip"),
       ("darwin-arm64", "https://www.silabs.com/documents/login/software/slc_cli_mac_aarch64.zip"),
       ("linux-x64", "https://www.silabs.com/documents/login/software/slc_cli_linux.zip"),
       ("linux-arm64", "https://www.silabs.com/documents/login/software/slc_cli_linux.zip"),
       ("linux-arm32", "https://www.silabs.com/documents/login/software/slc_cli_linux.zip")])]),
   ("zap",
    [("v2025.05.07",
      [("windows-x64", "https://github.com/project-chip/zap/releases/download/v2025.05.07/zap-windows-x64.zip"),
       ("windows-x86", "https://github.com/project-chip/zap/releases/download/v2025.05.07/zap-windows-x86.zip"),
       ("darwin-x64", "https://github.com/project-chip/zap/releases/download/v2025.05.07/zap-mac-x64.zip"),
       ("darwin-arm64", "https://github.com/project-chip/zap/releases/download/v2025.05.07/zap-mac-arm64.zip"),
       ("linux-x64", "https://github.com/project-chip/zap/releases/download/v2025.05.07/zap-linux-x64.zip"),
       ("linux-arm64", "https://github.com/project-chip/zap/releases/download/v2025.05.07/zap-linux-arm64.zip"),
       ("linux-arm32", "https://github.com/project-chip/zap/releases/download/v2025.05.07/zap-linux-arm32.zip")])])]

/-- Outcome of opening and JSON-parsing the bundled config resource in
PlatformDetector._load_url_config. The except clause of the source names
exactly the classes FileNotFoundError and json.JSONDecodeError;
permissionError models open raising PermissionError, an OSError that is not
FileNotFoundError and so is outside that except tuple. -/
inductive ReadOutcome where
  | success (cfg : UrlConfig)
  | fileNotFoundError
  | jsonDecodeError
  | permissionError

/-- PlatformDetector._load_url_config: memoized load of the catalog. The
argument cached is the self._url_config field before the call; the result
pairs the returned catalog with the field after the call. Only
FileNotFoundError and json.JSONDecodeError are caught and replaced by the
fallback catalog; any other exception propagates. -/
def load_url_config (cached : Option UrlConfig) (read : ReadOutcome) :
    Except PyError (UrlConfig × Option UrlConfig) :=
  match cached with
  | some cfg => .ok (cfg, some cfg)
  | none =>
    match read with
    | .success cfg => .ok (cfg, some cfg)
    | .fileNotFoundError => .ok (get_fallback_urls, some get_fallback_urls)
    | .jsonDecodeError => .ok (get_fallback_urls, some get_fallback_urls)
    | .permissionError => .error (.osError "PermissionError")

/-- The dict returned by a successful PlatformDetector.get_tool_urls. -/
structure ToolUrls where
  url : String
  platform : String
  filename : String
  deriving Repr, DecidableEq

/-- Last path segment of a URL: chars after the last slash of the reversed
character list. Models the Python expression url.split(\x27/\x27)[-1]. -/
def takeUntilSlash : List Char → List Char
  | [] => []
  | c :: cs => if c = '/' then [] else c :: takeUntilSlash cs

/-- The filename derived in get_tool_urls: url.split on slash, last item. -/
def lastSegment (url : String) : String :=
  String.mk (takeUntilSlash url.data.reverse).reverse

example : lastSegment "https://a.example/dir/slc_cli_linux.zip" = "slc_cli_linux.zip" := rfl
example : lastSegment "no-slash" = "no-slash" := rfl

/-- PlatformDetector.get_tool_urls. The url_config argument is the catalog
returned by self._load_url_config() (its memoization is modelled by
load_url_config above). Mirrors the source order: supported-platform check
first, then tool, then version, then platform key. -/
def get_tool_urls (d : PlatformDetector) (url_config : UrlConfig)
    (tool_name version : String) : Except PyError ToolUrls :=
  if !(is_supported d) then
    .error (.platformNotSupportedError
      ("Platform " ++ d.system ++ "-" ++ architecture d ++ " is not supported"))
  else
    match alookup tool_name url_config with
    | none => .error (.valueError ("Unknown tool: " ++ tool_name))
    | some versions =>
      match alookup version versions with
      | none =>
        .error (.valueError ("Unknown version: " ++ version ++ " for tool " ++ tool_name))
      | some platforms =>
        match alookup (platform_key d) platforms with
        | none =>
          .error (.platformNotSupportedError
            ("Platform " ++ platform_key d ++ " not supported for " ++ tool_name ++
              " version " ++ version))
        | some url =>
          .ok { url := url, platform := platform_key d, filename := lastSegment url }

/-- C1 (amended): get_tool_urls first rejects a detector whose platform key
is outside the seven-entry allow-list with PlatformNotSupported, before any
catalog lookup; when the platform is supported it checks in priority order
tool (UnknownTool as ValueError), then version (UnknownVersion as
ValueError), then platform key (PlatformNotSupported), and on success
returns the catalog URL with filename equal to the final path segment of
that URL. -/
theorem C1_get_tool_urls (d : PlatformDetector) (cfg : UrlConfig)
    (tool version : String) (hsup : is_supported d = true) :
    (alookup tool cfg = none →
      get_tool_urls d cfg tool version = .error (.valueError ("Unknown tool: " ++ tool))) ∧
    (∀ vs, alookup tool cfg = some vs → alookup version vs = none →
      get_tool_urls d cfg tool version =
        .error (.valueError ("Unknown version: " ++ version ++ " for tool " ++ tool))) ∧
    (∀ vs ps, alookup tool cfg = some vs → alookup version vs = some ps →
      alookup (platform_key d) ps = none →
      get_tool_urls d cfg tool version =
        .error (.platformNotSupportedError
          ("Platform " ++ platform_key d ++ " not supported for " ++ tool ++
            " version " ++ version))) ∧
    (∀ vs ps url, alookup tool cfg = some vs → alookup version vs = some ps →
      alookup (platform_key d) ps = some url →
      get_tool_urls d cfg tool version =
        .ok { url := url, platform := platform_key d, filename := lastSegment url }) := by
  refine ⟨?_, ?_, ?_, ?_⟩
  · intro h
    unfold get_tool_urls
    rw [hsup, h]
    rfl
  · intro vs h₁ h₂
    unfold get_tool_urls
    rw [hsup, h₁]
    dsimp only
    rw [h₂]
    rfl
  · intro vs ps h₁ h₂ h₃
    unfold get_tool_urls
    rw [hsup, h₁]
    dsimp only
    rw [h₂]
    dsimp only
    rw [h₃]
    rfl
  · intro vs ps url h₁ h₂ h₃
    unfold get_tool_urls
    rw [hsup, h₁]
    dsimp only
    rw [h₂]
    dsimp only
    rw [h₃]
    rfl

/-- C1 counterexample: the claim orders UnknownTool first for every platform
key, but on the unsupported platform key freebsd-x64 get_tool_urls raises
PlatformNotSupported even though the requested tool is absent from the
catalog, where the claim demands UnknownTool. -/
theorem C1_counterexample :
    alookup "no-such-tool" get_fallback_urls = none ∧
    get_tool_urls ⟨"freebsd", "x86_64"⟩ get_fallback_urls "no-such-tool" "latest" =
      .error (.platformNotSupportedError "Platform freebsd-x64 is not supported") :=
  ⟨rfl, rfl⟩

/-- C1 witness: the amended priority order evaluated on a supported
platform, a known tool and a known version, yielding the catalog URL and
its final path segment as filename. -/
theorem C1_witness :
    get_tool_urls ⟨"linux", "x86_64"⟩ get_fallback_urls "slc-cli" "latest" =
      Except.ok
        { url := "https://www.silabs.com/documents/login/software/slc_cli_linux.zip",
          platform := "linux-x64", filename := "slc_cli_linux.zip" } :=
  (C1_get_tool_urls ⟨"linux", "x86_64"⟩ get_fallback_urls "slc-cli" "latest" rfl).2.2.2
    _ _ _ rfl rfl rfl

/-- C4 (amended): the catalog load is memoized — with a cached catalog
present, every read outcome returns the cache unchanged, and a first load
stores its result — and a missing bundled resource (FileNotFoundError) or
malformed content (json.JSONDecodeError) falls back to the hard-coded
catalog without raising; but an unreadable resource (an OSError such as
PermissionError, outside the except tuple) propagates as an exception. -/
theorem C4_load_url_config (read : ReadOutcome) :
    (∀ cfg, load_url_config (some cfg) read = .ok (cfg, some cfg)) ∧
    (load_url_config none .fileNotFoundError = .ok (get_fallback_urls, some get_fallback_urls)) ∧
    (load_url_config none .jsonDecodeError = .ok (get_fallback_urls, some get_fallback_urls)) ∧
    (∀ cfg, load_url_config none (.success cfg) = .ok (cfg, some cfg)) ∧
    (load_url_config none .permissionError = .error (.osError "PermissionError")) :=
  ⟨fun _ => rfl, rfl, rfl, fun _ => rfl, rfl⟩

/-- C4 counterexample: the claim says every outcome of reading the bundled
resource — including an unreadable file — yields a catalog rather than an
exception, but a PermissionError on open propagates out of
load_url_config. -/
theorem C4_counterexample :
    load_url_config none .permissionError = .error (.osError "PermissionError") := rfl

/-! core.py: SimplicityTools. External effects are oracle fields of Env;
the mutable object state (the path cache self._tool_paths and the set of
on-disk tool subdirectories) is the explicit state St. -/

/-- One entry of the self.tools table built in SimplicityTools.__init__. -/
structure ToolCfg where
  executable : String
  subdir : String
  deriving Repr, DecidableEq

/-- The fixed external collaborators of one SimplicityTools instance:
the platform detector, the tools directory path, the catalog returned by
the detector's memoized _load_url_config, the recursive directory search
(ToolDownloader.find_executable_in_dir), the Path.exists check on a found
executable, shutil.which, and the outcome of one
ToolDownloader.download_and_extract_tool pipeline run. -/
structure Env where
  det : PlatformDetector
  tools_dir : String
  url_config : UrlConfig
  find : String → String → Option String
  fexists : String → Bool
  which : String → Option String
  pipeline : Except PyError String

/-- Mutable state of a SimplicityTools instance plus the owned filesystem:
the tool subdirectories currently present on disk and the in-memory path
cache self._tool_paths. -/
structure St where
  dirs : List String
  tool_paths : List (String × String)

/-- The self.tools table: the two managed tools with their platform-specific
executable names (note the zap entry asks for the zap-cli executable). -/
def tools (env : Env) : List (String × ToolCfg) :=
  [("slc-cli",
    { executable := get_executable_name env.det.system "slc-cli", subdir := "slc-cli" }),
   ("zap",
    { executable := get_executable_name env.det.system "zap-cli", subdir := "zap" })]

/-- The on-disk probe inside SimplicityTools._get_tool_path: when the
tool subdirectory exists, search it recursively for the executable name and
keep the find only when the found path exists. -/
def probe_dir (env : Env) (st : St) (tc : ToolCfg) : Option String :=
  if st.dirs.contains (env.tools_dir ++ "/" ++ tc.subdir) then
    match env.find (env.tools_dir ++ "/" ++ tc.subdir) tc.executable with
    | some p => if env.fexists p then some p else none
    | none => none
  else none

/-- SimplicityTools._get_tool_path: unknown tool raises ValueError; then
cache, then the on-disk subdirectory search, then shutil.which; first hit
is cached. -/
def get_tool_path_core (env : Env) (st : St) (tool_name : String) :
    Except PyError (Option String × St) :=
  match alookup tool_name (tools env) with
  | none => .error (.valueError ("Unknown tool: " ++ tool_name))
  | some tc =>
    match alookup tool_name st.tool_paths with
    | some p => .ok (some p, st)
    | none =>
      match probe_dir env st tc with
      | some p => .ok (some p, { st with tool_paths := aset tool_name p st.tool_paths })
      | none =>
        match env.which tc.executable with
        | some p => .ok (some p, { st with tool_paths := aset tool_name p st.tool_paths })
        | none => .ok (none, st)

/-- SimplicityTools.is_tool_installed. -/
def is_tool_installed (env : Env) (st : St) (tool_name : String) :
    Except PyError (Bool × St) :=
  match get_tool_path_core env st tool_name with
  | .error e => .error e
  | .ok (p, st₂) => .ok (p.isSome, st₂)

/-- SimplicityTools.get_tool_path: raises ToolNotFoundError when
_get_tool_path returns None. -/
def get_tool_path (env : Env) (st : St) (tool_name : String) :
    Except PyError (String × St) :=
  match get_tool_path_core env st tool_name with
  | .error e => .error e
  | .ok (none, _) => .error (.toolNotFoundError ("Tool " ++ tool_name ++ " is not installed"))
  | .ok (some p, st₂) => .ok (p, st₂)

/-- The version-defaulting block of install_tool: a None version becomes
available_versions[0], which raises IndexError on an empty list. -/
def resolve_version (available_versions : List String) (version : Option String) :
    Except PyError String :=
  match version with
  | some v => .ok v
  | none =>
    match available_versions with
    | [] => .error (.indexError "list index out of range")
    | v :: _ => .ok v

/-- SimplicityTools.install_tool. The result is the returned path or the
raised exception, the state after the call, and the number of times the
download-and-extract pipeline (the only network and extraction work) ran.
Mirrors the source order: platform support first, then the tool table, then
the catalog, then version defaulting and validation, then the
already-installed check, then get_tool_urls (failures wrapped in
InstallationError), then the pipeline (failures wrapped in
InstallationError, success cached). -/
def install_tool (env : Env) (st : St) (tool_name : String) (version : Option String) :
    Except PyError String × St × Nat :=
  if !(is_supported env.det) then
    (.error (.platformNotSupportedError
      ("Platform " ++ env.det.system ++ "-" ++ architecture env.det ++ " is not supported")),
      st, 0)
  else if (alookup tool_name (tools env)).isNone then
    (.error (.valueError ("Unknown tool: " ++ tool_name)), st, 0)
  else
    match alookup tool_name env.url_config with
    | none => (.error (.valueError ("Unknown tool: " ++ tool_name)), st, 0)
    | some versions =>
      let available_versions := akeys versions
      match resolve_version available_versions version with
      | .error e => (.error e, st, 0)
      | .ok v =>
        if !(available_versions.contains v) then
          (.error (.valueError ("Unknown version " ++ v ++ " for tool " ++ tool_name)),
            st, 0)
        else
          match get_tool_path_core env st tool_name with
          | .error e => (.error e, st, 0)
          | .ok (some _, st₁) =>
            (match get_tool_path env st₁ tool_name with
             | .ok (p, st₂) => (.ok p, st₂, 0)
             | .error e => (.error e, st₁, 0))
          | .ok (none, st₁) =>
            match get_tool_urls env.det env.url_config tool_name v with
            | .error _ =>
              (.error (.installationError ("Failed to get download info for " ++ tool_name)),
                st₁, 0)
            | .ok _info =>
              match env.pipeline with
              | .ok p =>
                (.ok p, { st₁ with tool_paths := aset tool_name p st₁.tool_paths }, 1)
              | .error _ =>
                (.error (.installationError ("Failed to install " ++ tool_name)), st₁, 1)

/-- SimplicityTools.uninstall_tool: unknown tool raises ValueError;
otherwise the os.walk(topdown=False) loop tries to delete each entry,
degrading each failure to a printed warning, then os.rmdir on the tool
directory itself (succeeding only when every entry was deleted and the
rmdir outcome allows it), and finally self._tool_paths.pop(tool_name, None)
unconditionally. The entries argument lists the walked entries with the
outcome of each deletion attempt; rmdirOk is the outcome of the final
rmdir when the directory is empty. The returned list holds the warnings. -/
def uninstall_tool (env : Env) (entries : List (String × Bool)) (rmdirOk : Bool)
    (st : St) (tool_name : String) : Except PyError (List String × St) :=
  match alookup tool_name (tools env) with
  | none => .error (.valueError ("Unknown tool: " ++ tool_name))
  | some tc =>
    let tool_dir := env.tools_dir ++ "/" ++ tc.subdir
    if st.dirs.contains tool_dir then
      let failed := entries.filter (fun e => !e.2)
      let warnings := failed.map (fun e => "Warning: Could not remove " ++ e.1)
      let dirRemoved := entries.all (fun e => e.2) && rmdirOk
      let warnings₂ :=
        if dirRemoved then warnings
        else warnings ++ ["Warning: Could not remove tool directory " ++ tool_dir]
      let dirs₂ := if dirRemoved then st.dirs.filter (fun d => !(d = tool_dir : Bool)) else st.dirs
      .ok (warnings₂, { dirs := dirs₂, tool_paths := apop tool_name st.tool_paths })
    else
      .ok ([], { st with tool_paths := apop tool_name st.tool_paths })

/-- SimplicityTools.get_available_versions: unknown tool raises ValueError;
a tool missing from the catalog yields an empty list; otherwise the version
labels in catalog order. -/
def get_available_versions (env : Env) (tool_name : String) :
    Except PyError (List String) :=
  match alookup tool_name (tools env) with
  | none => .error (.valueError ("Unknown tool: " ++ tool_name))
  | some _ =>
    match alookup tool_name env.url_config with
    | none => .ok []
    | some versions => .ok (akeys versions)

/-- Outcome of the subprocess.run call inside SimplicityTools.run_tool:
normal completion with an exit code (CompletedProcess.returncode), a raised
subprocess.SubprocessError, or a raised OSError — the exception the spawn
itself raises when the executable cannot be run, which is not a subclass of
subprocess.SubprocessError. -/
inductive SpawnOutcome where
  | completed (returncode : Int)
  | subprocessError (msg : String)
  | osError (msg : String)
  deriving Repr, DecidableEq

/-- SimplicityTools.run_tool: resolve the path (ToolNotFoundError if
unresolved), then run the process; only subprocess.SubprocessError is
caught and wrapped into SimplicityToolsError, so an OSError from the spawn
propagates unchanged, and a completed process is returned whatever its
exit code. The Int result models the CompletedProcess by its returncode. -/
def run_tool (env : Env) (st : St) (tool_name : String) (spawn : SpawnOutcome) :
    Except PyError (Int × St) :=
  match get_tool_path env st tool_name with
  | .error e => .error e
  | .ok (_, st₂) =>
    match spawn with
    | .completed code => .ok (code, st₂)
    | .subprocessError m =>
      .error (.simplicityToolsError ("Failed to run " ++ tool_name ++ ": " ++ m))
    | .osError m => .error (.osError m)

/-- A concrete environment on an unsupported platform (freebsd-x64), with
nothing installed anywhere. -/
def envFreebsd : Env :=
  { det := ⟨"freebsd", "x86_64"⟩, tools_dir := "/tools",
    url_config := get_fallback_urls,
    find := fun _ _ => none, fexists := fun _ => false, which := fun _ => none,
    pipeline := .ok "/tools/slc-cli/slc-cli" }

/-- A concrete supported environment (linux-x64) with an empty disk and an
empty PATH, whose download pipeline succeeds. -/
def envFresh : Env :=
  { det := ⟨"linux", "x86_64"⟩, tools_dir := "/tools",
    url_config := get_fallback_urls,
    find := fun _ _ => none, fexists := fun _ => false, which := fun _ => none,
    pipeline := .ok "/tools/slc-cli/slc-cli" }

/-- A concrete supported environment (linux-x64) where the slc-cli
executable is also resolvable on the system search path. -/
def envWithPath : Env :=
  { det := ⟨"linux", "x86_64"⟩, tools_dir := "/tools",
    url_config := get_fallback_urls,
    find := fun dir nm =>
      if dir = "/tools/slc-cli" ∧ nm = "slc-cli" then some "/tools/slc-cli/slc-cli" else none,
    fexists := fun _ => true,
    which := fun nm => if nm = "slc-cli" then some "/usr/local/bin/slc-cli" else none,
    pipeline := .ok "/tools/slc-cli/slc-cli" }

/-- The empty initial state: no tool directories, empty cache. -/
def st0 : St := { dirs := [], tool_paths := [] }

example : is_supported envFresh.det = true := rfl
example : is_supported envFreebsd.det = false := rfl
example : install_tool envFresh st0 "slc-cli" none =
    (.ok "/tools/slc-cli/slc-cli",
      { dirs := [], tool_paths := [("slc-cli", "/tools/slc-cli/slc-cli")] }, 1) := rfl
example : is_tool_installed envFresh
    { dirs := [], tool_paths := [("slc-cli", "/tools/slc-cli/slc-cli")] } "slc-cli" =
    .ok (true, { dirs := [], tool_paths := [("slc-cli", "/tools/slc-cli/slc-cli")] }) := rfl

/-- C5: for every tool name and version, on a platform outside the
allow-list install_tool fails with PlatformNotSupported immediately, with
the state unchanged and zero runs of the download pipeline — the failure
precedes any network request in every execution. -/
theorem C5_platform_check_first (env : Env) (st : St) (tool : String) (v : Option String)
    (h : is_supported env.det = false) :
    install_tool env st tool v =
      (.error (.platformNotSupportedError
        ("Platform " ++ env.det.system ++ "-" ++ architecture env.det ++ " is not supported")),
        st, 0) := by
  unfold install_tool
  rw [h]
  rfl

/-- C5 witness: the unsupported platform freebsd-x64 with the concrete tool
slc-cli fails before the pipeline runs. -/
theorem C5_witness :
    install_tool envFreebsd st0 "slc-cli" none =
      (.error (.platformNotSupportedError "Platform freebsd-x64 is not supported"), st0, 0) :=
  C5_platform_check_first envFreebsd st0 "slc-cli" none rfl

/-- C7 (amended): once the tool path resolves, a completed child process is
returned as a successful result carrying its exit code — non-zero included —
and a spawn failure raised as subprocess.SubprocessError is wrapped into the
generic SimplicityToolsError; but a spawn failure raised as OSError (the
usual exception when the executable cannot be executed) propagates
unchanged instead of being reported as the generic execution error. -/
theorem C7_run_tool (env : Env) (st : St) (tool : String) (p : String) (st₂ : St)
    (h : get_tool_path env st tool = .ok (p, st₂)) :
    (∀ c, run_tool env st tool (.completed c) = .ok (c, st₂)) ∧
    (∀ m, run_tool env st tool (.subprocessError m) =
      .error (.simplicityToolsError ("Failed to run " ++ tool ++ ": " ++ m))) ∧
    (∀ m, run_tool env st tool (.osError m) = .error (.osError m)) := by
  refine ⟨?_, ?_, ?_⟩ <;> intro x <;> unfold run_tool <;> rw [h]

/-- C7 counterexample: the claim says any failure to spawn is reported as
the generic execution error (SimplicityToolsError), but an OSError raised
by the spawn — here the canonical missing-file message — propagates as the
OSError itself, untouched by the except subprocess.SubprocessError
clause. -/
theorem C7_counterexample :
    run_tool envWithPath st0 "slc-cli" (.osError "No such file or directory") =
      .error (.osError "No such file or directory") ∧
    run_tool envWithPath st0 "slc-cli" (.osError "No such file or directory") ≠
      .error (.simplicityToolsError "Failed to run slc-cli: No such file or directory") := by
  refine ⟨rfl, ?_⟩
  intro h
  rw [show run_tool envWithPath st0 "slc-cli" (.osError "No such file or directory") =
    .error (.osError "No such file or directory") from rfl] at h
  simp at h

/-- C7 witness: a resolved tool whose child process exits with the non-zero
code 2 yields a successful result carrying 2. -/
theorem C7_witness :
    run_tool envWithPath st0 "slc-cli" (.completed 2) =
      .ok (2, { dirs := [], tool_paths := [("slc-cli", "/usr/local/bin/slc-cli")] }) :=
  (C7_run_tool envWithPath st0 "slc-cli" "/usr/local/bin/slc-cli"
    { dirs := [], tool_paths := [("slc-cli", "/usr/local/bin/slc-cli")] } rfl).1 2

/-- C8: for every managed tool and every combination of per-entry deletion
outcomes, uninstall_tool returns normally (never raises): each failed
deletion is degraded to one warning, a directory that could not be removed
adds one more, and the in-memory cache entry for the tool is cleared
regardless of whether deletion fully succeeded. -/
theorem C8_uninstall_never_raises (env : Env) (entries : List (String × Bool))
    (rmdirOk : Bool) (st : St) (tool : String) (tc : ToolCfg)
    (htc : alookup tool (tools env) = some tc) :
    ∃ w st₂, uninstall_tool env entries rmdirOk st tool = .ok (w, st₂) ∧
      alookup tool st₂.tool_paths = none ∧
      (st.dirs.contains (env.tools_dir ++ "/" ++ tc.subdir) = true →
        w.length = (entries.filter (fun e => !e.2)).length +
          (if entries.all (fun e => e.2) && rmdirOk then 0 else 1)) := by
  unfold uninstall_tool
  rw [htc]
  dsimp only
  by_cases hdir : st.dirs.contains (env.tools_dir ++ "/" ++ tc.subdir) = true
  · rw [if_pos hdir]
    by_cases hall : (entries.all (fun e => e.2) && rmdirOk) = true
    · refine ⟨_, _, rfl, alookup_apop_self _ _, fun _ => ?_⟩
      rw [if_pos hall, if_pos hall]
      simp
    · refine ⟨_, _, rfl, alookup_apop_self _ _, fun _ => ?_⟩
      rw [if_neg hall, if_neg hall]
      simp
  · rw [if_neg hdir]
    exact ⟨_, _, rfl, alookup_apop_self _ _, fun hc => absurd hc hdir⟩

/-- C8 witness: uninstalling slc-cli when one file deletion fails still
returns normally, produces two warnings (the file and the directory), and
clears the cache entry. -/
theorem C8_witness :
    ∃ w st₂, uninstall_tool envWithPath [("bin/slc-cli", false)] true
        { dirs := ["/tools/slc-cli"], tool_paths := [("slc-cli", "/tools/slc-cli/slc-cli")] }
        "slc-cli" = .ok (w, st₂) ∧
      alookup "slc-cli" st₂.tool_paths = none ∧
      (({ dirs := ["/tools/slc-cli"],
          tool_paths := [("slc-cli", "/tools/slc-cli/slc-cli")] } : St).dirs.contains
          (envWithPath.tools_dir ++ "/" ++ "slc-cli") = true →
        w.length = ([(("bin/slc-cli", false) : String × Bool)].filter (fun e => !e.2)).length +
          (if [(("bin/slc-cli", false) : String × Bool)].all (fun e => e.2) && true then 0 else 1)) :=
  C8_uninstall_never_raises envWithPath [("bin/slc-cli", false)] true
    { dirs := ["/tools/slc-cli"], tool_paths := [("slc-cli", "/tools/slc-cli/slc-cli")] }
    "slc-cli" ⟨get_executable_name "linux" "slc-cli", "slc-cli"⟩ rfl

/-- C10 (amended): for every string that is not a managed tool name,
is_tool_installed, get_tool_path, uninstall_tool and get_available_versions
raise ValueError (Unknown tool) in every state, and install_tool raises the
same ValueError whenever the detected platform is supported; on an
unsupported platform install_tool raises PlatformNotSupported before the
tool-name check. -/
theorem C10_unknown_tool (env : Env) (st : St) (name : String)
    (h₁ : name ≠ "slc-cli") (h₂ : name ≠ "zap") :
    is_tool_installed env st name = .error (.valueError ("Unknown tool: " ++ name)) ∧
    get_tool_path env st name = .error (.valueError ("Unknown tool: " ++ name)) ∧
    (∀ entries rmdirOk, uninstall_tool env entries rmdirOk st name =
      .error (.valueError ("Unknown tool: " ++ name))) ∧
    get_available_versions env name = .error (.valueError ("Unknown tool: " ++ name)) ∧
    (is_supported env.det = true → ∀ v, install_tool env st name v =
      (.error (.valueError ("Unknown tool: " ++ name)), st, 0)) := by
  have hno : alookup name (tools env) = none := by
    simp [tools, alookup, h₁, h₂]
  refine ⟨?_, ?_, ?_, ?_, ?_⟩
  · unfold is_tool_installed get_tool_path_core
    rw [hno]
  · unfold get_tool_path get_tool_path_core
    rw [hno]
  · intro entries rmdirOk
    unfold uninstall_tool
    rw [hno]
  · unfold get_available_versions
    rw [hno]
  · intro hsup v
    unfold install_tool
    rw [hsup, hno]
    rfl

/-- C10 counterexample: the claim requires ValueError for every non-managed
tool name, but on the unsupported platform freebsd-x64 install_tool raises
PlatformNotSupported for the unknown name invalid-tool, because the
platform check precedes the tool-name check. -/
theorem C10_counterexample :
    ("invalid-tool" ≠ "slc-cli" ∧ "invalid-tool" ≠ "zap") ∧
    install_tool envFreebsd st0 "invalid-tool" none =
      (.error (.platformNotSupportedError "Platform freebsd-x64 is not supported"), st0, 0) :=
  ⟨by decide, rfl⟩

/-- C10 witness: the non-managed name invalid-tool raises ValueError from
is_tool_installed in the concrete fresh environment. -/
theorem C10_witness :
    is_tool_installed envFresh st0 "invalid-tool" =
      .error (.valueError "Unknown tool: invalid-tool") :=
  (C10_unknown_tool envFresh st0 "invalid-tool" (by decide) (by decide)).1

theorem get_tool_path_core_some_cache {env : Env} {st : St} {tool p : String} {st₂ : St}
    (h : get_tool_path_core env st tool = .ok (some p, st₂)) :
    alookup tool st₂.tool_paths = some p := by
  unfold get_tool_path_core at h
  cases htc : alookup tool (tools env) with
  | none => rw [htc] at h; exact absurd h (by simp)
  | some tc =>
    rw [htc] at h
    dsimp only at h
    cases hc : alookup tool st.tool_paths with
    | some q =>
      rw [hc] at h
      simp only [Except.ok.injEq, Prod.mk.injEq, Option.some.injEq] at h
      obtain ⟨rfl, rfl⟩ := h
      exact hc
    | none =>
      rw [hc] at h
      dsimp only at h
      cases hpd : probe_dir env st tc with
      | some q =>
        rw [hpd] at h
        simp only [Except.ok.injEq, Prod.mk.injEq, Option.some.injEq] at h
        obtain ⟨rfl, rfl⟩ := h
        exact alookup_aset_self tool q st.tool_paths
      | none =>
        rw [hpd] at h
        dsimp only at h
        cases hw : env.which tc.executable with
        | some q =>
          rw [hw] at h
          simp only [Except.ok.injEq, Prod.mk.injEq, Option.some.injEq] at h
          obtain ⟨rfl, rfl⟩ := h
          exact alookup_aset_self tool q st.tool_paths
        | none =>
          rw [hw] at h
          simp at h

theorem get_tool_path_core_cached {env : Env} {st : St} {tool p : String} {tc : ToolCfg}
    (hts : alookup tool (tools env) = some tc)
    (hcache : alookup tool st.tool_paths = some p) :
    get_tool_path_core env st tool = .ok (some p, st) := by
  unfold get_tool_path_core
  rw [hts]
  dsimp only
  rw [hcache]

theorem get_tool_path_cached {env : Env} {st : St} {tool p : String} {tc : ToolCfg}
    (hts : alookup tool (tools env) = some tc)
    (hcache : alookup tool st.tool_paths = some p) :
    get_tool_path env st tool = .ok (p, st) := by
  unfold get_tool_path
  rw [get_tool_path_core_cached hts hcache]

theorem get_tool_path_core_absent (env : Env) (st : St) {tool : String} {tc : ToolCfg}
    (hts : alookup tool (tools env) = some tc)
    (hcache : alookup tool st.tool_paths = none)
    (hdir : st.dirs.contains (env.tools_dir ++ "/" ++ tc.subdir) = false)
    (hwhich : env.which tc.executable = none) :
    get_tool_path_core env st tool = .ok (none, st) := by
  unfold get_tool_path_core
  rw [hts]
  dsimp only
  rw [hcache]
  dsimp only
  have hpd : probe_dir env st tc = none := by
    unfold probe_dir
    rw [if_neg (by rw [hdir]; simp)]
  rw [hpd]
  dsimp only
  rw [hwhich]

theorem install_tool_cached {env : Env} {st : St} {tool : String} {v : Option String}
    {tc : ToolCfg} {versions : List (String × List (String × String))} {v₂ p : String}
    (hsup : is_supported env.det = true)
    (hts : alookup tool (tools env) = some tc)
    (hcfg : alookup tool env.url_config = some versions)
    (hrv : resolve_version (akeys versions) v = .ok v₂)
    (hcv : (akeys versions).contains v₂ = true)
    (hcache : alookup tool st.tool_paths = some p) :
    install_tool env st tool v = (.ok p, st, 0) := by
  unfold install_tool
  rw [if_neg (by simp [hsup]), if_neg (by simp [hts]), hcfg]
  dsimp only
  rw [hrv]
  dsimp only
  rw [if_neg (by rw [hcv]; simp), get_tool_path_core_cached hts hcache]
  dsimp only
  rw [get_tool_path_cached hts hcache]

/-- C3: install is idempotent — whenever a call to install_tool succeeds
with path p, final state st₂ and n pipeline runs, n is at most one and an
immediately repeated call with the same arguments performs zero pipeline
runs (no network or extraction work) and returns the same path p with the
state unchanged. -/
theorem C3_install_idempotent (env : Env) (st : St) (tool : String) (v : Option String)
    (p : String) (st₂ : St) (n : Nat)
    (h : install_tool env st tool v = (.ok p, st₂, n)) :
    n ≤ 1 ∧ install_tool env st₂ tool v = (.ok p, st₂, 0) := by
  unfold install_tool at h
  cases hsup : is_supported env.det with
  | false =>
    rw [if_pos (by simp [hsup])] at h
    exact absurd h (by simp)
  | true =>
    rw [if_neg (by simp [hsup])] at h
    cases hts : alookup tool (tools env) with
    | none =>
      rw [if_pos (by simp [hts])] at h
      exact absurd h (by simp)
    | some tc =>
      rw [if_neg (by simp [hts])] at h
      cases hcfg : alookup tool env.url_config with
      | none =>
        rw [hcfg] at h
        exact absurd h (by simp)
      | some versions =>
        rw [hcfg] at h
        dsimp only at h
        cases hrv : resolve_version (akeys versions) v with
        | error e =>
          rw [hrv] at h
          exact absurd h (by simp)
        | ok v₂ =>
          rw [hrv] at h
          dsimp only at h
          cases hcv : (akeys versions).contains v₂ with
          | false =>
            rw [if_pos (by rw [hcv]; rfl)] at h
            exact absurd h (by simp)
          | true =>
            rw [if_neg (by rw [hcv]; simp)] at h
            cases hcore : get_tool_path_core env st tool with
            | error e =>
              rw [hcore] at h
              exact absurd h (by simp)
            | ok pr =>
              obtain ⟨popt, st₁⟩ := pr
              cases popt with
              | some q =>
                rw [hcore] at h
                dsimp only at h
                have hcache₁ : alookup tool st₁.tool_paths = some q :=
                  get_tool_path_core_some_cache hcore
                rw [get_tool_path_cached hts hcache₁] at h
                dsimp only at h
                simp only [Prod.mk.injEq, Except.ok.injEq] at h
                obtain ⟨rfl, rfl, rfl⟩ := h
                exact ⟨by omega, install_tool_cached hsup hts hcfg hrv hcv hcache₁⟩
              | none =>
                rw [hcore] at h
                dsimp only at h
                cases hurl : get_tool_urls env.det env.url_config tool v₂ with
                | error e =>
                  rw [hurl] at h
                  exact absurd h (by simp)
                | ok info =>
                  rw [hurl] at h
                  dsimp only at h
                  cases hpp : env.pipeline with
                  | error e =>
                    rw [hpp] at h
                    exact absurd h (by simp)
                  | ok q =>
                    rw [hpp] at h
                    dsimp only at h
                    simp only [Prod.mk.injEq, Except.ok.injEq] at h
                    obtain ⟨rfl, rfl, rfl⟩ := h
                    exact ⟨by omega,
                      install_tool_cached hsup hts hcfg hrv hcv
                        (alookup_aset_self tool q st₁.tool_paths)⟩

/-- C3 witness: after the fresh install of slc-cli succeeded with one
pipeline run, the repeated call performs zero pipeline runs and returns the
identical path and state. -/
theorem C3_witness :
    install_tool envFresh
      { dirs := [], tool_paths := [("slc-cli", "/tools/slc-cli/slc-cli")] } "slc-cli" none =
      (.ok "/tools/slc-cli/slc-cli",
        { dirs := [], tool_paths := [("slc-cli", "/tools/slc-cli/slc-cli")] }, 0) :=
  (C3_install_idempotent envFresh st0 "slc-cli" none "/tools/slc-cli/slc-cli"
    { dirs := [], tool_paths := [("slc-cli", "/tools/slc-cli/slc-cli")] } 1 rfl).2

theorem contains_filter_self_false (x : String) (l : List String) :
    (l.filter (fun d => !(d = x : Bool))).contains x = false := by
  cases hc : (l.filter (fun d => !(d = x : Bool))).contains x with
  | false => rfl
  | true =>
    have hm : x ∈ l.filter (fun d => !(d = x : Bool)) := by
      have h₄ := hc
      simp only [List.contains] at h₄
      exact List.mem_of_elem_eq_true h₄
    have h₂ := (List.mem_filter.mp hm).2
    simp at h₂

/-- C6 (amended): for every managed tool, after uninstall_tool in which all
individual deletions succeed, the in-memory cache no longer references the
tool and the dedicated subdirectory no longer exists; and provided the
executable is not also resolvable through the system search path
(shutil.which), is_tool_installed is then false. (When some deletions fail,
C8 shows the cache entry is still cleared.) -/
theorem C6_uninstall_removes (env : Env) (entries : List (String × Bool)) (st : St)
    (tool : String) (tc : ToolCfg)
    (htc : alookup tool (tools env) = some tc)
    (hall : entries.all (fun e => e.2) = true)
    (hwhich : env.which tc.executable = none) :
    ∃ w st₂, uninstall_tool env entries true st tool = .ok (w, st₂) ∧
      alookup tool st₂.tool_paths = none ∧
      st₂.dirs.contains (env.tools_dir ++ "/" ++ tc.subdir) = false ∧
      is_tool_installed env st₂ tool = .ok (false, st₂) := by
  unfold uninstall_tool
  rw [htc]
  dsimp only
  by_cases hdir : st.dirs.contains (env.tools_dir ++ "/" ++ tc.subdir) = true
  · rw [if_pos hdir, if_pos (by simp [hall]), if_pos (by simp [hall])]
    refine ⟨_, _, rfl, alookup_apop_self _ _, contains_filter_self_false _ _, ?_⟩
    unfold is_tool_installed
    rw [get_tool_path_core_absent env
      { dirs := List.filter (fun d => !(d = env.tools_dir ++ "/" ++ tc.subdir : Bool)) st.dirs,
        tool_paths := apop tool st.tool_paths }
      htc (alookup_apop_self _ _) (contains_filter_self_false _ _) hwhich]
    rfl
  · rw [if_neg hdir]
    have hdir₂ : st.dirs.contains (env.tools_dir ++ "/" ++ tc.subdir) = false :=
      Bool.not_eq_true _ ▸ eq_false_of_ne_true hdir
    refine ⟨_, _, rfl, alookup_apop_self _ _, hdir₂, ?_⟩
    unfold is_tool_installed
    rw [get_tool_path_core_absent env
      { dirs := st.dirs, tool_paths := apop tool st.tool_paths }
      htc (alookup_apop_self _ _) hdir₂ hwhich]
    rfl

/-- C6 counterexample: in a state where slc-cli is installed on disk and the
same executable is also on the system search path, a fully successful
uninstall removes the subdirectory and clears the cache, yet
is_tool_installed is still true afterwards (resolved via shutil.which),
where the claim demands false. -/
theorem C6_counterexample :
    uninstall_tool envWithPath [("slc-cli-bin", true)] true
        { dirs := ["/tools/slc-cli"], tool_paths := [("slc-cli", "/tools/slc-cli/slc-cli")] }
        "slc-cli" = .ok ([], { dirs := [], tool_paths := [] }) ∧
    is_tool_installed envWithPath { dirs := [], tool_paths := [] } "slc-cli" =
      .ok (true, { dirs := [], tool_paths := [("slc-cli", "/usr/local/bin/slc-cli")] }) :=
  ⟨rfl, rfl⟩

/-- C6 witness: in the fresh environment (nothing on the search path), a
fully successful uninstall of the installed slc-cli leaves the cache
cleared, the subdirectory gone, and is_tool_installed false. -/
theorem C6_witness :
    ∃ w st₂, uninstall_tool envFresh [("slc-cli-bin", true)] true
        { dirs := ["/tools/slc-cli"], tool_paths := [("slc-cli", "/tools/slc-cli/slc-cli")] }
        "slc-cli" = .ok (w, st₂) ∧
      alookup "slc-cli" st₂.tool_paths = none ∧
      st₂.dirs.contains (envFresh.tools_dir ++ "/" ++ "slc-cli") = false ∧
      is_tool_installed envFresh st₂ "slc-cli" = .ok (false, st₂) :=
  C6_uninstall_removes envFresh [("slc-cli-bin", true)]
    { dirs := ["/tools/slc-cli"], tool_paths := [("slc-cli", "/tools/slc-cli/slc-cli")] }
    "slc-cli" ⟨get_executable_name "linux" "slc-cli", "slc-cli"⟩ rfl rfl rfl

/-! downloader.py: ToolDownloader.download_and_extract_tool, with the
per-step outcomes as oracles. -/

/-- Oracle outcomes for one run of download_and_extract_tool: the result of
download_file (a path, or a raised DownloadError), whether the
extract_dir.mkdir call raises, the outcome of extract_archive (None means
success), the result of find_executable_in_dir, whether make_executable
raises, and whether the unlink inside cleanup_archive succeeds. -/
structure DlEnv where
  downloadResult : Except PyError String
  mkdirRaises : Bool
  extractRaises : Option PyError
  findResult : Option String
  chmodRaises : Bool
  unlinkOk : Bool

/-- Result of one modelled run: the returned path or raised exception,
whether the finally-block cleanup ran, and whether the archive file was
actually removed. -/
structure DlResult where
  result : Except PyError String
  cleanupAttempted : Bool
  archiveRemoved : Bool

/-- ToolDownloader.cleanup_archive: tries to unlink the archive when it
exists, swallowing OSError; returns whether the file was removed and never
raises. -/
def cleanup_archive (archiveExists unlinkOk : Bool) : Bool :=
  archiveExists && unlinkOk

/-- ToolDownloader.download_and_extract_tool: download the archive (a
failure here propagates with no cleanup to do), create the extraction
directory, then run extract → locate → chmod inside a try whose finally
always calls cleanup_archive on the downloaded file. -/
def download_and_extract_tool (env : DlEnv) : DlResult :=
  match env.downloadResult with
  | .error e => { result := .error e, cleanupAttempted := false, archiveRemoved := false }
  | .ok _ =>
    if env.mkdirRaises then
      { result := .error (.osError "mkdir failed"), cleanupAttempted := false,
        archiveRemoved := false }
    else
      { result :=
          match env.extractRaises with
          | some e => .error e
          | none =>
            match env.findResult with
            | none =>
              .error (.installationError "Could not find executable in extracted files")
            | some p =>
              if env.chmodRaises then
                .error (.installationError "Failed to make executable")
              else .ok p,
        cleanupAttempted := true,
        archiveRemoved := cleanup_archive true env.unlinkOk }

/-- C9 (amended): whenever the download itself completes and the creation
of the extraction directory succeeds, the finally-block cleanup of the
downloaded archive runs whatever the outcomes of extraction, executable
location and permission marking; the archive is actually removed exactly
when the best-effort unlink succeeds; and the primary result is identical
for every unlink outcome — a cleanup failure never masks the primary
error. (When the mkdir between the download and the try/finally raises,
the cleanup is skipped: see the counterexample.) -/
theorem C9_archive_cleanup (env : DlEnv) (apath : String)
    (hdl : env.downloadResult = .ok apath) (hmk : env.mkdirRaises = false) :
    (download_and_extract_tool env).cleanupAttempted = true ∧
    (download_and_extract_tool env).archiveRemoved = env.unlinkOk ∧
    (∀ b, (download_and_extract_tool { env with unlinkOk := b }).result =
      (download_and_extract_tool env).result) := by
  obtain ⟨dl, mk, ex, fr, ch, ul⟩ := env
  obtain rfl : dl = .ok apath := hdl
  obtain rfl : mk = false := hmk
  refine ⟨rfl, ?_, fun b => rfl⟩
  simp [download_and_extract_tool, cleanup_archive]

/-- C9 witness: a run whose extraction fails still attempts the cleanup,
and with a failing unlink the archive stays while the extraction error is
still the reported result. -/
theorem C9_witness :
    (download_and_extract_tool
      { downloadResult := .ok "/tools/zap-linux-x64.zip", mkdirRaises := false,
        extractRaises := some (.installationError "Failed to extract"),
        findResult := none, chmodRaises := false, unlinkOk := false }).cleanupAttempted =
      true :=
  (C9_archive_cleanup
    { downloadResult := .ok "/tools/zap-linux-x64.zip", mkdirRaises := false,
      extractRaises := some (.installationError "Failed to extract"),
      findResult := none, chmodRaises := false, unlinkOk := false }
    "/tools/zap-linux-x64.zip" rfl rfl).1

/-- C9 counterexample: the claim demands that in every install attempt in
which the download completes the archive is removed afterward, but the
extract_dir.mkdir call sits between the download and the try/finally
(downloader.py): when it raises — reachable, since mkdir with exist_ok=True
still raises when the path is occupied by a regular file, or on permission
denial — the function exits after a completed download with cleanup_archive
never called and the archive left on disk. -/
theorem C9_counterexample :
    (download_and_extract_tool
      { downloadResult := .ok "/tools/zap-linux-x64.zip", mkdirRaises := true,
        extractRaises := none, findResult := some "/tools/zap/zap-cli",
        chmodRaises := false, unlinkOk := true }).cleanupAttempted = false ∧
    (download_and_extract_tool
      { downloadResult := .ok "/tools/zap-linux-x64.zip", mkdirRaises := true,
        extractRaises := none, findResult := some "/tools/zap/zap-cli",
        chmodRaises := false, unlinkOk := true }).archiveRemoved = false :=
  ⟨rfl, rfl⟩

end ST
